import Mathlib

/-!
Verification development for `src/include/boost/sweater/threading/hardware_concurrency.cpp`
(microblink/sweater), quota-aware build (`BOOST_SWEATER_DOCKER_LIMITS`).

The probed OS state (contents of the cgroup files and the results of the
`get_nprocs_conf` / `get_nprocs` OS calls) is modelled as an explicit
environment record `Env`.  A file that cannot be opened is `none`;
otherwise `some content`, the bytes the kernel would deliver, as a list of
characters.  `std::strtol` / `std::atoi` (base-10 use only, as in the
source) are modelled exactly, including the C rule that when no conversion
is performed the value is 0 and the end pointer is the original string.
C `int` truncation of `long` results (`static_cast<int>`) is modelled by
`toInt32`; C integer division (truncation towards zero) by `Int.tdiv`.
The cast of the final results to `hardware_concurrency_t` (a plain integer
typedef living in `hardware_concurrency.hpp`, which only declares types
and is not part of the studied translation unit) is modelled as the
identity.
-/

namespace Sweater

/-- C `isspace` in the default locale: space, \t, \n, vertical tab, form feed, \r. -/
def isSpaceChar (c : Char) : Bool :=
  c = ' ' || c = '\t' || c = '\n' || c = '\x0b' || c = '\x0c' || c = '\r'

/-- Numeric value of a decimal digit character. -/
def digitVal (c : Char) : Int :=
  Int.ofNat (c.toNat - 48)

/-- Consume a maximal run of decimal digits, accumulating the value;
returns the value and the rest of the input (the C end pointer). -/
def parseDigits : List Char → Int → Int × List Char
  | [], acc => (acc, [])
  | c :: cs, acc =>
      if c.isDigit then parseDigits cs (acc * 10 + digitVal c) else (acc, c :: cs)

/-- Drop leading `isspace` characters, as `strtol` does. -/
def dropSpaces : List Char → List Char
  | [] => []
  | c :: cs => if isSpaceChar c then dropSpaces cs else c :: cs

/-- Model of C `strtol(s, &endptr, 10)`: skip whitespace, optional sign,
then digits.  Returns the converted value and the end pointer's suffix.
When no digits follow (no conversion performed) the value is 0 and the
end pointer is the original string `s`, as the C standard specifies. -/
def strtol (s : List Char) : Int × List Char :=
  match dropSpaces s with
  | '-' :: rest =>
      if (rest.headD ' ').isDigit then
        let r := parseDigits rest 0
        (-r.1, r.2)
      else (0, s)
  | '+' :: rest =>
      if (rest.headD ' ').isDigit then parseDigits rest 0 else (0, s)
  | t =>
      if (t.headD ' ').isDigit then parseDigits t 0 else (0, s)

/-- C `long` → `int` conversion (`static_cast<int>`): wrap modulo 2^32
into [-2^31, 2^31). -/
def toInt32 (n : Int) : Int :=
  (n + 2 ^ 31) % 2 ^ 32 - 2 ^ 31

/-- Model of C `std::atoi`: `(int)strtol(s, nullptr, 10)`. -/
def atoi (s : List Char) : Int :=
  toInt32 (strtol s).1

/-- The probed OS state: contents of the three cgroup files (`none` when
`open` fails) and the values the two OS processor-count calls return. -/
structure Env where
  /-- Content of `/sys/fs/cgroup/cpu.max` (cgroup v2 unified interface). -/
  cpuMax : Option (List Char)
  /-- Content of `/sys/fs/cgroup/cpu/cpu.cfs_quota_us` (legacy v1). -/
  cfsQuotaFile : Option (List Char)
  /-- Content of `/sys/fs/cgroup/cpu/cpu.cfs_period_us` (legacy v1). -/
  cfsPeriodFile : Option (List Char)
  /-- Result of `get_nprocs_conf()`: configured processor count. -/
  nprocsConf : Int
  /-- Result of `get_nprocs()`: online processor count. -/
  nprocs : Int

/-- `read_int( file_path )`: `-1` when `open` fails, otherwise
`std::atoi` of the bytes read. -/
def read_int (file : Option (List Char)) : Int :=
  match file with
  | none => -1
  | some content => atoi content

/-- The `(cfs_quota, cfs_period)` pair `get_docker_limit` computes before
its final check: from the unified `cpu.max` file via two chained `strtol`
calls when it opens, otherwise from the two legacy files via `read_int`. -/
def quota_period (env : Env) : Int × Int :=
  match env.cpuMax with
  | some value_pair =>
      let r := strtol value_pair
      (toInt32 r.1, toInt32 (strtol r.2).1)
  | none =>
      (read_int env.cfsQuotaFile, read_int env.cfsPeriodFile)

/-- `get_docker_limit()`: if both quota and period are strictly positive,
`std::max( (cfs_quota + cfs_period / 2) / cfs_period, 1 )` in C integer
arithmetic, else the sentinel `-1`. -/
def get_docker_limit (env : Env) : Int :=
  if (quota_period env).1 > 0 ∧ (quota_period env).2 > 0 then
    max (Int.tdiv ((quota_period env).1 + Int.tdiv (quota_period env).2 2) (quota_period env).2) 1
  else
    -1

/-- `get_hardware_concurrency_max()`: `docker_quota` is the process-wide
value cached at static initialisation (first argument); `nprocs_conf` is
the fresh `get_nprocs_conf()` result of this call. -/
def get_hardware_concurrency_max (docker_quota : Int) (nprocs_conf : Int) : Int :=
  if docker_quota ≠ -1 then docker_quota else nprocs_conf

/-- `hardware_concurrency_current()`: cached `docker_quota`, else the
fresh `get_nprocs()` result of this call. -/
def hardware_concurrency_current (docker_quota : Int) (nprocs : Int) : Int :=
  if docker_quota ≠ -1 then docker_quota else nprocs

/-- Size of the stack buffer for the unified `cpu.max` read. -/
def unified_buffer_size : Nat := 128

/-- Size of the stack buffer in `read_int` for each legacy file. -/
def legacy_buffer_size : Nat := 64

/-- Number of bytes a successful `::read` into a buffer of `bufsize`
bytes returns for a file holding `content`. -/
def read_result (content : List Char) (bufsize : Nat) : Nat :=
  min content.length bufsize

/-- The `BOOST_VERIFY( ::read( ... ) < signed( sizeof( ... ) ) )`
assertion guarding each read. -/
def read_assert_ok (content : List Char) (bufsize : Nat) : Prop :=
  read_result content bufsize < bufsize

/-- Build-time platform of the translation unit, as far as the
`slow_thread_signals` flag is concerned. -/
inductive Platform where
  | android (apiLevel : Int)
  | generic

/-- `slow_thread_signals`:  on Android the constructor in the source sets
`value{ android_get_device_api_level() < 24 }` (pre Android 7 Nougat).
Modelled from the spec: for every non-Android platform the flag (declared
in `hardware_concurrency.hpp`, not part of this translation unit) is
statically `false`. -/
def slow_thread_signals : Platform → Bool
  | .android api => decide (api < 24)
  | .generic => false

/-! Helper lemmas shared by the claim theorems. -/

/-- `get_docker_limit` returns either the sentinel `-1` or a value ≥ 1. -/
theorem docker_limit_cases (env : Env) :
    get_docker_limit env = -1 ∨ 1 ≤ get_docker_limit env := by
  unfold get_docker_limit
  split
  · exact Or.inr (le_max_right _ 1)
  · exact Or.inl rfl

/-- When the cached quota is not the sentinel, both resolver queries return it. -/
theorem resolver_present (q nconf non : Int) (h : q ≠ -1) :
    get_hardware_concurrency_max q nconf = q ∧ hardware_concurrency_current q non = q := by
  unfold get_hardware_concurrency_max hardware_concurrency_current
  exact ⟨if_pos h, if_pos h⟩

/-- When the cached quota is the sentinel, the resolver queries pass the OS
probe values through. -/
theorem resolver_absent (q nconf non : Int) (h : q = -1) :
    get_hardware_concurrency_max q nconf = nconf ∧ hardware_concurrency_current q non = non := by
  unfold get_hardware_concurrency_max hardware_concurrency_current
  exact ⟨if_neg (fun hc => hc h), if_neg (fun hc => hc h)⟩

/-! Claim theorems. -/

/-- C1: for every pair of integers quota > 0 and period > 0 read from the
cgroup interface, `get_docker_limit` returns exactly
`max( (quota + period/2) / period, 1 )` in C integer arithmetic
(round-half-up, not truncation). -/
theorem docker_limit_round_half_up (env : Env)
    (hq : 0 < (quota_period env).1) (hp : 0 < (quota_period env).2) :
    get_docker_limit env =
      max (Int.tdiv ((quota_period env).1 + Int.tdiv (quota_period env).2 2)
            (quota_period env).2) 1 := by
  unfold get_docker_limit
  exact if_pos ⟨hq, hp⟩

/-- Witness for C1: quota=150000, period=100000 yields 2 and
quota=50000, period=100000 yields 1. -/
theorem docker_limit_round_half_up_witness :
    get_docker_limit ⟨some ("150000 100000\n".toList), none, none, 8, 8⟩ = 2 ∧
    get_docker_limit ⟨some ("50000 100000\n".toList), none, none, 8, 8⟩ = 1 :=
  ⟨(docker_limit_round_half_up ⟨some ("150000 100000\n".toList), none, none, 8, 8⟩
      (by decide) (by decide)).trans (by decide),
   (docker_limit_round_half_up ⟨some ("50000 100000\n".toList), none, none, 8, 8⟩
      (by decide) (by decide)).trans (by decide)⟩

/-- C2 counterexample: with every cgroup file absent (quota sentinel `-1`)
and both OS processor-count calls returning 0, both public queries return
0, not a value ≥ 1 — the code passes the OS probe values through without
clamping. -/
theorem concurrency_min_one_counterexample :
    get_hardware_concurrency_max (get_docker_limit ⟨none, none, none, 0, 0⟩)
        (Env.nprocsConf ⟨none, none, none, 0, 0⟩) = 0 ∧
    hardware_concurrency_current (get_docker_limit ⟨none, none, none, 0, 0⟩)
        (Env.nprocs ⟨none, none, none, 0, 0⟩) = 0 ∧
    ¬ (1 ≤ get_hardware_concurrency_max (get_docker_limit ⟨none, none, none, 0, 0⟩)
          (Env.nprocsConf ⟨none, none, none, 0, 0⟩)) := by
  decide

/-- C2 amended: whenever the two OS processor-count calls return values
≥ 1, both public queries return a value ≥ 1 for every state of the probed
files (missing files, malformed contents, zero-length reads); the quota
branch alone always yields ≥ 1. -/
theorem concurrency_min_one_amended (env : Env)
    (hconf : 1 ≤ env.nprocsConf) (hon : 1 ≤ env.nprocs) :
    1 ≤ get_hardware_concurrency_max (get_docker_limit env) env.nprocsConf ∧
    1 ≤ hardware_concurrency_current (get_docker_limit env) env.nprocs := by
  rcases docker_limit_cases env with h | h
  · rcases resolver_absent (get_docker_limit env) env.nprocsConf env.nprocs h with ⟨h1, h2⟩
    rw [h1, h2]
    exact ⟨hconf, hon⟩
  · have hne : get_docker_limit env ≠ -1 := by omega
    rcases resolver_present (get_docker_limit env) env.nprocsConf env.nprocs hne with ⟨h1, h2⟩
    rw [h1, h2]
    exact ⟨h, h⟩

/-- Witness for C2 amended: garbage quota file, sane OS probe values. -/
theorem concurrency_min_one_amended_witness :
    1 ≤ get_hardware_concurrency_max (get_docker_limit ⟨some ("garbage".toList), none, none, 4, 2⟩)
          (Env.nprocsConf ⟨some ("garbage".toList), none, none, 4, 2⟩) ∧
    1 ≤ hardware_concurrency_current (get_docker_limit ⟨some ("garbage".toList), none, none, 4, 2⟩)
          (Env.nprocs ⟨some ("garbage".toList), none, none, 4, 2⟩) :=
  concurrency_min_one_amended ⟨some ("garbage".toList), none, none, 4, 2⟩
    (by decide) (by decide)

/-- C3: if the cached quota is not the sentinel `-1`, both queries return
it; if it is the sentinel, `get_hardware_concurrency_max` returns the
`get_nprocs_conf()` value and `hardware_concurrency_current` the
`get_nprocs()` value. -/
theorem quota_override_policy (env : Env) :
    (get_docker_limit env ≠ -1 →
        get_hardware_concurrency_max (get_docker_limit env) env.nprocsConf =
            get_docker_limit env ∧
        hardware_concurrency_current (get_docker_limit env) env.nprocs =
            get_docker_limit env) ∧
    (get_docker_limit env = -1 →
        get_hardware_concurrency_max (get_docker_limit env) env.nprocsConf =
            env.nprocsConf ∧
        hardware_concurrency_current (get_docker_limit env) env.nprocs =
            env.nprocs) :=
  ⟨fun h => resolver_present (get_docker_limit env) env.nprocsConf env.nprocs h,
   fun h => resolver_absent (get_docker_limit env) env.nprocsConf env.nprocs h⟩

/-- Witness for C3: a present quota (1.5 cores → 2) overrides both
queries; an absent quota exposes the two distinct OS probe values. -/
theorem quota_override_policy_witness :
    get_hardware_concurrency_max
        (get_docker_limit ⟨some ("150000 100000\n".toList), none, none, 8, 4⟩)
        (Env.nprocsConf ⟨some ("150000 100000\n".toList), none, none, 8, 4⟩) = 2 ∧
    get_hardware_concurrency_max (get_docker_limit ⟨none, none, none, 8, 4⟩)
        (Env.nprocsConf ⟨none, none, none, 8, 4⟩) = 8 ∧
    hardware_concurrency_current (get_docker_limit ⟨none, none, none, 8, 4⟩)
        (Env.nprocs ⟨none, none, none, 8, 4⟩) = 4 := by
  have h1 := (quota_override_policy ⟨some ("150000 100000\n".toList), none, none, 8, 4⟩).1
      (by decide)
  have h2 := (quota_override_policy ⟨none, none, none, 8, 4⟩).2 (by decide)
  exact ⟨h1.1.trans (by decide), h2.1.trans (by decide), h2.2.trans (by decide)⟩

/-- C4: when the unified file opens but the parsed quota or period is zero
or negative — in particular when the leading token is the textual
`max` (unlimited) marker, which `strtol` leaves unconverted as 0 —
`get_docker_limit` returns the sentinel `-1` and the public queries return
the OS probe values. -/
theorem unlimited_or_nonpositive_absent (env : Env)
    (hfile : env.cpuMax.isSome = true)
    (hbad : (quota_period env).1 ≤ 0 ∨ (quota_period env).2 ≤ 0) :
    (get_docker_limit env = -1 ∧
     get_hardware_concurrency_max (get_docker_limit env) env.nprocsConf = env.nprocsConf ∧
     hardware_concurrency_current (get_docker_limit env) env.nprocs = env.nprocs) ∧
    (∀ rest : List Char,
        strtol ('m' :: 'a' :: 'x' :: rest) = (0, 'm' :: 'a' :: 'x' :: rest)) := by
  have habs : get_docker_limit env = -1 := by
    unfold get_docker_limit
    apply if_neg
    rintro ⟨h1, h2⟩
    rcases hbad with h | h <;> omega
  refine ⟨⟨habs, ?_⟩, fun rest => rfl⟩
  exact resolver_absent (get_docker_limit env) env.nprocsConf env.nprocs habs

/-- Witness for C4: the unified file holding the textual marker
`max 100000` yields the sentinel and OS probe pass-through. -/
theorem unlimited_or_nonpositive_absent_witness :
    get_docker_limit ⟨some ("max 100000\n".toList), none, none, 8, 4⟩ = -1 ∧
    get_hardware_concurrency_max
        (get_docker_limit ⟨some ("max 100000\n".toList), none, none, 8, 4⟩)
        (Env.nprocsConf ⟨some ("max 100000\n".toList), none, none, 8, 4⟩) = 8 ∧
    hardware_concurrency_current
        (get_docker_limit ⟨some ("max 100000\n".toList), none, none, 8, 4⟩)
        (Env.nprocs ⟨some ("max 100000\n".toList), none, none, 8, 4⟩) = 4 := by
  have h := unlimited_or_nonpositive_absent ⟨some ("max 100000\n".toList), none, none, 8, 4⟩
      (by decide) (Or.inl (by decide))
  exact ⟨h.1.1, h.1.2.1.trans (by decide), h.1.2.2.trans (by decide)⟩

/-- C5: when the unified path does not open, the quota and period come
from the two legacy files independently via `read_int`; an open failure on
either legacy file yields the sentinel `-1` for that file's value; and
`get_docker_limit` is total — every failure degrades to the sentinel `-1`
(or a valid count ≥ 1), never an error. -/
theorem legacy_fallback_degrades (env : Env) (hnone : env.cpuMax = none) :
    quota_period env = (read_int env.cfsQuotaFile, read_int env.cfsPeriodFile) ∧
    (env.cfsQuotaFile = none → (quota_period env).1 = -1) ∧
    (env.cfsPeriodFile = none → (quota_period env).2 = -1) ∧
    (get_docker_limit env = -1 ∨ 1 ≤ get_docker_limit env) := by
  obtain ⟨cm, qf, pf, nc, np⟩ := env
  cases cm with
  | some c => exact Option.noConfusion hnone
  | none =>
      refine ⟨rfl, ?_, ?_, docker_limit_cases _⟩
      · intro h
        have hq : qf = none := h
        subst hq
        rfl
      · intro h
        have hp : pf = none := h
        subst hp
        rfl

/-- Witness for C5: both legacy files failing to open give the sentinel
for both values. -/
theorem legacy_fallback_degrades_witness :
    (quota_period ⟨none, none, none, 1, 1⟩).1 = -1 ∧
    (quota_period ⟨none, none, none, 1, 1⟩).2 = -1 :=
  ⟨(legacy_fallback_degrades ⟨none, none, none, 1, 1⟩ rfl).2.1 rfl,
   (legacy_fallback_degrades ⟨none, none, none, 1, 1⟩ rfl).2.2.1 rfl⟩

/-- C6: if the kernel's file content is strictly shorter than the read
buffer (128 bytes unified, 64 bytes legacy), the read never fills the
buffer and the `BOOST_VERIFY( read < sizeof buffer )` assertion holds; a
read returning exactly the buffer size makes the assertion fail — it is
not a handled error. -/
theorem read_buffer_assertion :
    (∀ content : List Char, content.length < unified_buffer_size →
        read_assert_ok content unified_buffer_size) ∧
    (∀ content : List Char, content.length < legacy_buffer_size →
        read_assert_ok content legacy_buffer_size) ∧
    (∀ content : List Char, unified_buffer_size ≤ content.length →
        ¬ read_assert_ok content unified_buffer_size) ∧
    (∀ content : List Char, legacy_buffer_size ≤ content.length →
        ¬ read_assert_ok content legacy_buffer_size) := by
  refine ⟨fun c h => ?_, fun c h => ?_, fun c h => ?_, fun c h => ?_⟩ <;>
    simp only [read_assert_ok, read_result, unified_buffer_size, legacy_buffer_size,
      Nat.min_def] at h ⊢ <;>
    split_ifs <;>
    omega

/-- Witness for C6: an empty file passes both assertions; contents filling
the buffers exactly fail them. -/
theorem read_buffer_assertion_witness :
    read_assert_ok [] unified_buffer_size ∧
    read_assert_ok [] legacy_buffer_size ∧
    ¬ read_assert_ok (List.replicate 128 'x') unified_buffer_size ∧
    ¬ read_assert_ok (List.replicate 64 'x') legacy_buffer_size :=
  ⟨read_buffer_assertion.1 [] (by decide),
   read_buffer_assertion.2.1 [] (by decide),
   read_buffer_assertion.2.2.1 (List.replicate 128 'x') (by simp [unified_buffer_size]),
   read_buffer_assertion.2.2.2 (List.replicate 64 'x') (by simp [legacy_buffer_size])⟩

/-- C7: `slow_thread_signals` is true exactly on Android with device API
level strictly below 24; it is false at or above the cutoff and on every
other platform. -/
theorem slow_signals_iff (p : Platform) :
    slow_thread_signals p = true ↔
      ∃ api : Int, p = Platform.android api ∧ api < 24 := by
  constructor
  · intro h
    cases p with
    | android api =>
        refine ⟨api, rfl, ?_⟩
        simpa [slow_thread_signals] using h
    | generic => simp [slow_thread_signals] at h
  · rintro ⟨api, rfl, hlt⟩
    simp [slow_thread_signals, hlt]

/-- C8 counterexample: with the quota absent and the online-processor
probe returning 0, `hardware_concurrency_current` returns 0, violating
the per-call ≥ 1 part of the claim. -/
theorem max_stable_counterexample :
    hardware_concurrency_current (get_docker_limit ⟨none, none, none, 1, 0⟩)
        (Env.nprocs ⟨none, none, none, 1, 0⟩) = 0 ∧
    ¬ (1 ≤ hardware_concurrency_current (get_docker_limit ⟨none, none, none, 1, 0⟩)
          (Env.nprocs ⟨none, none, none, 1, 0⟩)) := by
  decide

/-- C8 amended: with the cached quota fixed and the configured-processor
probe held fixed, any two calls to `get_hardware_concurrency_max` return
the same value; each individual `hardware_concurrency_current` call
returns ≥ 1 provided the online-processor probe of that call returns ≥ 1
(the code does not clamp the probe value). -/
theorem max_stable_current_min_one_amended (init e1 e2 : Env)
    (hconf : e1.nprocsConf = e2.nprocsConf) :
    get_hardware_concurrency_max (get_docker_limit init) e1.nprocsConf =
      get_hardware_concurrency_max (get_docker_limit init) e2.nprocsConf ∧
    ∀ e : Env, 1 ≤ e.nprocs →
      1 ≤ hardware_concurrency_current (get_docker_limit init) e.nprocs := by
  refine ⟨by rw [hconf], fun e he => ?_⟩
  rcases docker_limit_cases init with h | h
  · rw [(resolver_absent (get_docker_limit init) e.nprocsConf e.nprocs h).2]
    exact he
  · have hne : get_docker_limit init ≠ -1 := by omega
    rw [(resolver_present (get_docker_limit init) e.nprocsConf e.nprocs hne).2]
    exact h

/-- Witness for C8 amended: two later calls with the same configured
count agree, and a current call with online count 7 stays ≥ 1. -/
theorem max_stable_current_min_one_amended_witness :
    get_hardware_concurrency_max (get_docker_limit ⟨none, none, none, 2, 3⟩)
        (Env.nprocsConf ⟨none, none, none, 2, 5⟩) =
      get_hardware_concurrency_max (get_docker_limit ⟨none, none, none, 2, 3⟩)
        (Env.nprocsConf ⟨none, none, none, 2, 7⟩) ∧
    1 ≤ hardware_concurrency_current (get_docker_limit ⟨none, none, none, 2, 3⟩)
        (Env.nprocs ⟨none, none, none, 2, 7⟩) := by
  have h := max_stable_current_min_one_amended ⟨none, none, none, 2, 3⟩
      ⟨none, none, none, 2, 5⟩ ⟨none, none, none, 2, 7⟩ rfl
  exact ⟨h.1, h.2 ⟨none, none, none, 2, 7⟩ (by decide)⟩

/-- C10: whenever the cached quota is present (not the sentinel `-1`),
`hardware_concurrency_current` returns the same value as
`get_hardware_concurrency_max` — regardless of the OS probe values of
either call — and in particular current ≤ max. -/
theorem quota_present_current_eq_max (init e1 e2 : Env)
    (h : get_docker_limit init ≠ -1) :
    hardware_concurrency_current (get_docker_limit init) e1.nprocs =
      get_hardware_concurrency_max (get_docker_limit init) e2.nprocsConf ∧
    hardware_concurrency_current (get_docker_limit init) e1.nprocs ≤
      get_hardware_concurrency_max (get_docker_limit init) e2.nprocsConf := by
  have hc := resolver_present (get_docker_limit init) e2.nprocsConf e1.nprocs h
  have heq := hc.2.trans hc.1.symm
  exact ⟨heq, le_of_eq heq⟩

/-- Witness for C10: quota 1.5 cores present, probes 12 online and 16
configured — both queries return 2. -/
theorem quota_present_current_eq_max_witness :
    hardware_concurrency_current
        (get_docker_limit ⟨some ("150000 100000\n".toList), none, none, 8, 4⟩)
        (Env.nprocs ⟨none, none, none, 16, 12⟩) =
      get_hardware_concurrency_max
        (get_docker_limit ⟨some ("150000 100000\n".toList), none, none, 8, 4⟩)
        (Env.nprocsConf ⟨none, none, none, 16, 12⟩) :=
  (quota_present_current_eq_max ⟨some ("150000 100000\n".toList), none, none, 8, 4⟩
      ⟨none, none, none, 16, 12⟩ ⟨none, none, none, 16, 12⟩ (by decide)).1

end Sweater
